import Mathlib

/-!
Verification of the gradia customer-generator pipeline
(`src/customer-generator/src/generate_customers.py`, `render_nric.py`,
`render_passport.py`) against its natural-language specification.

The Python sources are shallowly embedded below: JSON values become an
inductive `Json` type (Python dicts are ordered association lists, matching
insertion order), fallible code returns `Except`, and all randomness and
clock reads are passed in explicitly as oracle parameters.
-/

/-- A JSON value as handled by the Python code (`json.loads` output).
Python floats/ints are modelled together as exact rationals; Python dicts
are ordered association lists with unique keys (insertion order). -/
inductive Json where
  | null : Json
  | bool : Bool → Json
  | num : ℚ → Json
  | str : String → Json
  | arr : List Json → Json
  | obj : List (String × Json) → Json
deriving Repr

/-- First-match association-list lookup; Python dict keys are unique, so
this coincides with dict indexing. -/
def lookupKey : List (String × Json) → String → Option Json
  | [], _ => none
  | (k, v) :: rest, key => if k = key then some v else lookupKey rest key

/-- Object access in `rec[k]` style; `none` when the key is absent or the
value is not an object (used only in theorem statements). -/
def Json.getKey : Json → String → Option Json
  | .obj kvs, k => lookupKey kvs k
  | _, _ => none

/-- Python truthiness of a JSON value (`bool(v)`): `None`, `False`, `0`,
`""`, `[]` and an empty dict are falsy, everything else is truthy. -/
def Json.truthy : Json → Bool
  | .null => false
  | .bool b => b
  | .num q => if q = 0 then false else true
  | .str s => if s = "" then false else true
  | .arr xs => !xs.isEmpty
  | .obj kvs => !kvs.isEmpty

/-- Truthiness of a `dict.get` result (`None` for a missing key is falsy). -/
def truthyOpt : Option Json → Bool
  | none => false
  | some v => v.truthy

-- ---------------------------------------------------------------------------
-- Path Resolver (`_resolve_pointer` in all three source files)
-- ---------------------------------------------------------------------------

/-- The two exception classes `_resolve_pointer` raises:
`ValueError("Invalid JSON pointer: ...")` and `KeyError("Path not found: ...")`. -/
inductive ResolveErr where
  | invalidPointer : ResolveErr
  | notFound : ResolveErr
deriving Repr, DecidableEq

/-- Python `pointer.strip("/")`: remove all leading and trailing `'/'`
characters (trailing first here; the two passes commute). -/
def stripSlashes (s : String) : String :=
  String.mk (((s.toList.reverse.dropWhile (· = '/')).reverse).dropWhile (· = '/'))

/-- Python `s.split("/")` on a character list: split at every `'/'`,
keeping empty pieces (`"".split("/") == [""]`, `"a//b".split("/") ==
["a","","b"]`). `acc` holds the current piece, reversed. -/
def splitSlashAux : List Char → List Char → List String
  | [], acc => [String.mk acc.reverse]
  | c :: rest, acc =>
    if c = '/' then String.mk acc.reverse :: splitSlashAux rest []
    else splitSlashAux rest (c :: acc)

/-- The components the code traverses: `pointer.strip("/").split("/")`. -/
def pathComponents (p : String) : List String :=
  splitSlashAux (stripSlashes p).toList []

/-- The traversal loop of `_resolve_pointer`:
`for part in parts: if isinstance(cur, dict) and part in cur: cur = cur[part]
else: raise KeyError(...)`. -/
def resolveParts : Json → List String → Except ResolveErr Json
  | cur, [] => .ok cur
  | cur, part :: rest =>
    match cur with
    | .obj kvs =>
      match lookupKey kvs part with
      | some v => resolveParts v rest
      | none => .error .notFound
    | _ => .error .notFound

/-- Model of `_resolve_pointer(doc, pointer)` (identical in all three source files):
reject an empty pointer or one not starting with `'/'`, then traverse the
stripped-and-split components. -/
def resolvePointer (doc : Json) (pointer : String) : Except ResolveErr Json :=
  match pointer.toList with
  | [] => .error .invalidPointer
  | c :: _ =>
    if c ≠ '/' then .error .invalidPointer
    else resolveParts doc (pathComponents pointer)

/-- Specification-side traversal: successively index the record with the
given components through nested mappings; `none` as soon as a component is
absent or the current value is not a mapping. -/
def lookupPath : Json → List String → Option Json
  | j, [] => some j
  | .obj kvs, part :: rest =>
    match lookupKey kvs part with
    | some v => lookupPath v rest
    | none => none
  | _, _ :: _ => none

-- ---------------------------------------------------------------------------
-- Dates (model of Python `datetime.date` arithmetic used by the generator)
-- ---------------------------------------------------------------------------

/-- A proleptic-Gregorian calendar date, as Python's `datetime.date`. -/
structure PDate where
  year : Nat
  month : Nat
  day : Nat
deriving Repr, DecidableEq

/-- Gregorian leap-year rule. -/
def isLeap (y : Nat) : Bool :=
  y % 4 = 0 && (y % 100 ≠ 0 || y % 400 = 0)

/-- Days in month `m` of year `y`. -/
def daysInMonth (y m : Nat) : Nat :=
  if m = 2 then (if isLeap y then 29 else 28)
  else if m = 4 ∨ m = 6 ∨ m = 9 ∨ m = 11 then 30
  else 31

/-- Days in all years strictly before year `y` (year 1 is the first year). -/
def daysBeforeYear (y : Nat) : Nat :=
  365 * (y - 1) + (y - 1) / 4 - (y - 1) / 100 + (y - 1) / 400

/-- Days in the months of year `y` strictly before month `m`. -/
def daysBeforeMonth (y m : Nat) : Nat :=
  (List.range (m - 1)).foldl (fun acc i => acc + daysInMonth y (i + 1)) 0

/-- Python `date.toordinal()`: day count with 0001-01-01 = 1. -/
def toOrdinal (d : PDate) : Nat :=
  daysBeforeYear d.year + daysBeforeMonth d.year d.month + d.day

/-- Python `date.fromordinal(n)`: inverse of `toOrdinal`, via the standard
civil-calendar algorithm shifted to a 0000-03-01 epoch (so that all
intermediate values stay in `Nat`). -/
def fromOrdinal (n : Nat) : PDate :=
  let z := n + 305
  let era := z / 146097
  let doe := z % 146097
  let yoe := (doe - doe / 1460 + doe / 36524 - doe / 146096) / 365
  let y := yoe + era * 400
  let doy := doe - (365 * yoe + yoe / 4 - yoe / 100)
  let mp := (5 * doy + 2) / 153
  let d := doy - (153 * mp + 2) / 5 + 1
  let m := if mp < 10 then mp + 3 else mp - 9
  if m ≤ 2 then ⟨y + 1, m, d⟩ else ⟨y, m, d⟩

/-- Python `d.replace(year=y)`. -/
def replaceYear (d : PDate) (y : Nat) : PDate := { d with year := y }

-- ---------------------------------------------------------------------------
-- `random_dob` / `age_from_dob` (generate_customers.py lines 57-71)
-- ---------------------------------------------------------------------------

/-- Model of `random_dob(age_min, age_max)`: `latest_dob = today.replace(year=today.year
- age_min)`, `earliest_dob = today.replace(year=today.year - age_max) -
timedelta(days=365)`, return `earliest_dob + timedelta(days=r)` where
`r = random.randint(0, span_days)` is passed in as the oracle draw. -/
def randomDob (today : PDate) (_ageMin ageMax : Nat) (r : Nat) : PDate :=
  let earliest := fromOrdinal (toOrdinal (replaceYear today (today.year - ageMax)) - 365)
  fromOrdinal (toOrdinal earliest + r)

/-- Model of `span_days = (latest_dob - earliest_dob).days`: the inclusive upper bound
of the `randint` draw in `random_dob`. -/
def dobSpan (today : PDate) (ageMin : Nat) (ageMax : Nat) : Nat :=
  toOrdinal (replaceYear today (today.year - ageMin)) -
    (toOrdinal (replaceYear today (today.year - ageMax)) - 365)

/-- Model of `age_from_dob(dob)`: year difference, minus one when today's
`(month, day)` precedes the birthday's `(month, day)`. -/
def ageFromDob (today dob : PDate) : Int :=
  let years : Int := (today.year : Int) - (dob.year : Int)
  if today.month < dob.month ∨ (today.month = dob.month ∧ today.day < dob.day) then
    years - 1
  else years

-- ---------------------------------------------------------------------------
-- Value Transform (`_apply_format`, identical in all three source files)
-- ---------------------------------------------------------------------------

/-- Zero-pad the decimal rendering of `n` to (at least) `w` digits. -/
def padNum (w n : Nat) : String :=
  let s := toString n
  String.mk (List.replicate (w - s.length) '0') ++ s

/-- Python `date.isoformat()`: `YYYY-MM-DD`. -/
def isoDate (d : PDate) : String :=
  padNum 4 d.year ++ "-" ++ padNum 2 d.month ++ "-" ++ padNum 2 d.day

/-- One digit character to its value, `none` on non-digits. -/
def digitVal (c : Char) : Option Nat :=
  if '0' ≤ c ∧ c ≤ '9' then some (c.toNat - '0'.toNat) else none

/-- A parsed UTC offset: sign and magnitude in microseconds (`timezone`
objects allow any offset strictly below 24 hours; the all-zero offset is
`timezone.utc`, stored with `neg = false`). -/
structure TzOffset where
  neg : Bool
  totalUs : Nat
deriving Repr, DecidableEq

/-- A parsed `datetime`: date, time-of-day, microsecond, and optional
fixed UTC offset — the result type of `datetime.fromisoformat`. -/
structure PDateTime where
  date : PDate
  hour : Nat
  minute : Nat
  second : Nat
  microsecond : Nat
  tz : Option TzOffset
deriving Repr, DecidableEq

/-- Two leading digit characters to their value and the remaining input
(CPython's C parser scans fixed-width digit runs). -/
def digit2 : List Char → Option (Nat × List Char)
  | a :: b :: rest =>
    match digitVal a, digitVal b with
    | some x, some y => some (10 * x + y, rest)
    | _, _ => none
  | _ => none

/-- A run of digit characters to its value; `none` on any non-digit. -/
def digitsToNat (l : List Char) : Option Nat :=
  l.foldl
    (fun acc c =>
      match acc, digitVal c with
      | some a, some v => some (10 * a + v)
      | _, _ => none)
    (some 0)

/-- Model of `_parse_hh_mm_ss_ff`: `HH[:MM[:SS[.fff|.ffffff]]]`, consuming
the whole input; the fraction must have exactly 3 or 6 digits (3 digits
are milliseconds). No range validation happens here (the `datetime`
constructor does that). -/
def parseHMSF (l : List Char) : Option (Nat × Nat × Nat × Nat) :=
  match digit2 l with
  | none => none
  | some (h, rest) =>
    match rest with
    | [] => some (h, 0, 0, 0)
    | ':' :: r2 =>
      match digit2 r2 with
      | none => none
      | some (m, r3) =>
        match r3 with
        | [] => some (h, m, 0, 0)
        | ':' :: r4 =>
          match digit2 r4 with
          | none => none
          | some (sec, r5) =>
            match r5 with
            | [] => some (h, m, sec, 0)
            | '.' :: frac =>
              if frac.length = 3 then
                match digitsToNat frac with
                | some v => some (h, m, sec, v * 1000)
                | none => none
              else if frac.length = 6 then
                match digitsToNat frac with
                | some v => some (h, m, sec, v)
                | none => none
              else none
            | _ => none
        | _ => none
    | _ => none

/-- Split a time string at the first `'+'` or `'-'` (the offset sign), as
CPython's C `parse_isoformat_time` does; the sign character itself is
consumed. -/
def splitTzSign : List Char → List Char × Option (Char × List Char)
  | [] => ([], none)
  | c :: rest =>
    if c = '+' ∨ c = '-' then ([], some (c, rest))
    else
      let pr := splitTzSign rest
      (c :: pr.1, pr.2)

/-- Model of `_parse_isoformat_time`: `HH[:MM[:SS[.fff|.ffffff]]]`
optionally followed by an offset `(+|-)HH:MM[:SS[.ffffff]]` (the offset
part must be exactly 5, 8 or 15 characters after the sign). An all-zero
offset is `timezone.utc`; otherwise the `timezone` constructor demands a
magnitude strictly below 24 hours. -/
def parseIsoTime (tstr : List Char) : Option (Nat × Nat × Nat × Nat × Option TzOffset) :=
  match splitTzSign tstr with
  | (timestr, none) =>
    match parseHMSF timestr with
    | some (h, m, sec, us) => some (h, m, sec, us, none)
    | none => none
  | (timestr, some (sign, tzstr)) =>
    match parseHMSF timestr with
    | none => none
    | some (h, m, sec, us) =>
      if tzstr.length = 5 ∨ tzstr.length = 8 ∨ tzstr.length = 15 then
        match parseHMSF tzstr with
        | none => none
        | some (th, tm, ts, tus) =>
          let total := (th * 3600 + tm * 60 + ts) * 1000000 + tus
          if total = 0 then some (h, m, sec, us, some ⟨false, 0⟩)
          else if total < 24 * 3600 * 1000000 then
            some (h, m, sec, us, some ⟨sign = '-', total⟩)
          else none
      else none

/-- Model of `datetime.fromisoformat` as CPython's C accelerator
implements it for Python 3.7-3.10 — whose documented domain is exactly
the output of `datetime.isoformat()`, and which every later version still
accepts: `YYYY-MM-DD`, optionally followed by one separator character
(any single character) and a time per `parseIsoTime`. The parsed
components must form a valid calendar date (`1 <= year`, so at most 9999
with four digits) and a valid time (`hour <= 23`, `minute, second <= 59`),
as the `datetime` constructor enforces. Forms that only the Python >= 3.11
rewrite adds (a trailing `Z`, `YYYYMMDD`, week dates, long fractions) are
outside this minimum-supported grammar and are modelled as unparseable. -/
def parseIsoDateTime (s : String) : Option PDateTime :=
  match s.toList with
  | y1 :: y2 :: y3 :: y4 :: '-' :: m1 :: m2 :: '-' :: d1 :: d2 :: rest =>
    match digitVal y1, digitVal y2, digitVal y3, digitVal y4,
          digitVal m1, digitVal m2, digitVal d1, digitVal d2 with
    | some a, some b, some c, some d, some e, some f, some g, some h =>
      let y := 1000 * a + 100 * b + 10 * c + d
      let mo := 10 * e + f
      let dd := 10 * g + h
      if 1 ≤ y ∧ 1 ≤ mo ∧ mo ≤ 12 ∧ 1 ≤ dd ∧ dd ≤ daysInMonth y mo then
        match rest with
        | [] => some ⟨⟨y, mo, dd⟩, 0, 0, 0, 0, none⟩
        | _sep :: tstr =>
          match parseIsoTime tstr with
          | some (hh, mi, ss, us, tz) =>
            if hh ≤ 23 ∧ mi ≤ 59 ∧ ss ≤ 59 then
              some ⟨⟨y, mo, dd⟩, hh, mi, ss, us, tz⟩
            else none
          | none => none
      else none
    | _, _, _, _, _, _, _, _ => none
  | _ => none

/-- English month names, for `%B` / `%b`. -/
def monthName (m : Nat) : String :=
  [ "January", "February", "March", "April", "May", "June", "July",
    "August", "September", "October", "November", "December" ].getD (m - 1) ""

/-- English day names indexed Monday = 0 (Python `date.weekday()`), for
`%A` / `%a`. -/
def dayNames : List String :=
  ["Monday", "Tuesday", "Wednesday", "Thursday", "Friday", "Saturday", "Sunday"]

/-- Python `date.weekday()`: Monday = 0 (ordinal 1 is a Monday). -/
def dayOfWeekMon (d : PDate) : Nat := (toOrdinal d + 6) % 7

/-- Weekday with Sunday = 0, as `%w` renders it. -/
def dayOfWeekSun (d : PDate) : Nat := toOrdinal d % 7

/-- Day of the year, 1-based, as `%j` renders it. -/
def dayOfYear (d : PDate) : Nat := toOrdinal d - toOrdinal ⟨d.year, 1, 1⟩ + 1

/-- The ordinal of the Thursday in `d`'s ISO week (it defines the ISO
year and week number). -/
def isoThursday (d : PDate) : Nat := toOrdinal d - dayOfWeekMon d + 3

/-- The ISO 8601 week-based year, as `%G` renders it. -/
def isoYearOf (d : PDate) : Nat := (fromOrdinal (isoThursday d)).year

/-- The ISO 8601 week number, as `%V` renders it. -/
def isoWeekOf (d : PDate) : Nat :=
  (isoThursday d - toOrdinal ⟨isoYearOf d, 1, 1⟩) / 7 + 1

/-- The `%z` replacement `_wrap_strftime` substitutes: empty for a naive
datetime, otherwise `(+|-)HHMM`, with `SS` appended when seconds are
nonzero and `.ffffff` when microseconds are. -/
def formatZ (tz : Option TzOffset) : String :=
  match tz with
  | none => ""
  | some o =>
    let hh := o.totalUs / 3600000000
    let mm := o.totalUs / 60000000 % 60
    let ss := o.totalUs / 1000000 % 60
    let us := o.totalUs % 1000000
    (if o.neg then "-" else "+") ++ padNum 2 hh ++ padNum 2 mm ++
      (if us ≠ 0 then padNum 2 ss ++ "." ++ padNum 6 us
       else if ss ≠ 0 then padNum 2 ss
       else "")

/-- The `%Z` replacement: empty for a naive datetime, `"UTC"` for the zero
offset, otherwise `timezone`'s generated name `UTC(+|-)HH:MM[:SS[.ffffff]]`. -/
def formatZName (tz : Option TzOffset) : String :=
  match tz with
  | none => ""
  | some o =>
    if o.totalUs = 0 then "UTC"
    else
      let hh := o.totalUs / 3600000000
      let mm := o.totalUs / 60000000 % 60
      let ss := o.totalUs / 1000000 % 60
      let us := o.totalUs % 1000000
      "UTC" ++ (if o.neg then "-" else "+") ++ padNum 2 hh ++ ":" ++ padNum 2 mm ++
        (if us ≠ 0 then ":" ++ padNum 2 ss ++ "." ++ padNum 6 us
         else if ss ≠ 0 then ":" ++ padNum 2 ss
         else "")

/-- One strftime directive, in the C/POSIX locale (CPython never calls
`setlocale`, so `%a %A %b %B %p %c %x %X` take their C-locale forms, as on
the glibc the renderer runs on). The set covers the directives the
`datetime.strftime` documentation lists (plus `%e`); anything else
(platform extensions such as `%s` or `%n`) is kept verbatim, and `%%`
renders a percent sign. -/
def strfDirective (dt : PDateTime) (c : Char) : List Char :=
  let d := dt.date
  if c = 'Y' then (padNum 4 d.year).toList
  else if c = 'm' then (padNum 2 d.month).toList
  else if c = 'd' then (padNum 2 d.day).toList
  else if c = 'y' then (padNum 2 (d.year % 100)).toList
  else if c = 'B' then (monthName d.month).toList
  else if c = 'b' then ((monthName d.month).toList.take 3)
  else if c = 'H' then (padNum 2 dt.hour).toList
  else if c = 'I' then (padNum 2 ((dt.hour + 11) % 12 + 1)).toList
  else if c = 'M' then (padNum 2 dt.minute).toList
  else if c = 'S' then (padNum 2 dt.second).toList
  else if c = 'f' then (padNum 6 dt.microsecond).toList
  else if c = 'p' then (if dt.hour < 12 then "AM" else "PM").toList
  else if c = 'j' then (padNum 3 (dayOfYear d)).toList
  else if c = 'a' then ((dayNames.getD (dayOfWeekMon d) "").toList.take 3)
  else if c = 'A' then (dayNames.getD (dayOfWeekMon d) "").toList
  else if c = 'w' then (toString (dayOfWeekSun d)).toList
  else if c = 'u' then (toString (dayOfWeekMon d + 1)).toList
  else if c = 'U' then (padNum 2 ((dayOfYear d + 6 - dayOfWeekSun d) / 7)).toList
  else if c = 'W' then (padNum 2 ((dayOfYear d + 6 - dayOfWeekMon d) / 7)).toList
  else if c = 'V' then (padNum 2 (isoWeekOf d)).toList
  else if c = 'G' then (padNum 4 (isoYearOf d)).toList
  else if c = 'e' then
    ((if d.day < 10 then " " else "") ++ toString d.day).toList
  else if c = 'c' then
    (String.mk ((dayNames.getD (dayOfWeekMon d) "").toList.take 3) ++ " " ++
      String.mk ((monthName d.month).toList.take 3) ++ " " ++
      (if d.day < 10 then " " else "") ++ toString d.day ++ " " ++
      padNum 2 dt.hour ++ ":" ++ padNum 2 dt.minute ++ ":" ++ padNum 2 dt.second ++
      " " ++ padNum 4 d.year).toList
  else if c = 'x' then
    (padNum 2 d.month ++ "/" ++ padNum 2 d.day ++ "/" ++ padNum 2 (d.year % 100)).toList
  else if c = 'X' then
    (padNum 2 dt.hour ++ ":" ++ padNum 2 dt.minute ++ ":" ++ padNum 2 dt.second).toList
  else if c = 'z' then (formatZ dt.tz).toList
  else if c = 'Z' then (formatZName dt.tz).toList
  else if c = '%' then ['%']
  else ['%', c]

/-- Body of `dt.strftime(pattern)`: substitute `%`-directives, copy other
characters through. -/
def strftimeAux (dt : PDateTime) : List Char → List Char
  | [] => []
  | '%' :: c :: rest => strfDirective dt c ++ strftimeAux dt rest
  | '%' :: [] => ['%']
  | c :: rest => c :: strftimeAux dt rest

/-- Python `dt.strftime(pattern)` on a parsed datetime. -/
def strftime (dt : PDateTime) (pattern : String) : String :=
  String.mk (strftimeAux dt pattern.toList)

/-- Python `s.strip()`: drop leading and trailing whitespace. -/
def pyStrip (s : String) : String :=
  String.mk (((s.toList.reverse.dropWhile Char.isWhitespace).reverse).dropWhile
    Char.isWhitespace)

/-- Check of `fmt.startswith("date:")`, returning `fmt[5:]` (what
`fmt.split("date:", 1)[1]` yields for such a prefix) on success. -/
def splitDateFmt (f : String) : Option String :=
  match f.toList with
  | 'd' :: 'a' :: 't' :: 'e' :: ':' :: rest => some (String.mk rest)
  | _ => none

/-- Model of `_apply_format(value, fmt)`: falsy or missing `fmt`, or a non-string
value, is returned unchanged; a `date:<pattern>` spec re-renders an
ISO-parseable string with the whitespace-stripped pattern and returns the
string unchanged on parse failure; any other spec returns the value
unchanged. -/
def applyFormat (value : Json) (fmt : Option String) : Json :=
  match fmt with
  | none => value
  | some f =>
    if f = "" then value
    else
      match value with
      | .str s =>
        match splitDateFmt f with
        | some pat =>
          match parseIsoDateTime s with
          | some dt => .str (strftime dt (pyStrip pat))
          | none => .str s
        | none => .str s
      | v => v

-- ---------------------------------------------------------------------------
-- Rendering pipeline (`render_passport.py`)
-- ---------------------------------------------------------------------------

/-- The exception classes a per-record render can raise:
`ValueError` from `_resolve_pointer` (invalid pointer), `KeyError` from
`_resolve_pointer` (path not found), `ValueError` from `_compute_func`
(unknown function), `ValueError` for an unsupported source prefix,
`AttributeError` (e.g. `None.startswith`, `.get` on a non-dict),
`KeyError` from `customer["customer_id"]`, and Jinja2's
`TemplateNotFound`. -/
inductive RenderErr where
  | invalidPointer : RenderErr
  | notFound : RenderErr
  | unknownFunc : RenderErr
  | unsupportedSource : RenderErr
  | attributeError : RenderErr
  | keyError : RenderErr
  | templateNotFound : RenderErr
deriving Repr, DecidableEq

/-- A Field Declaration from the Rendering Config: the code reads
`fld["key"]` (required) and `fld.get("source")` / `fld.get("format")`
(optional, `None` when absent). -/
structure FieldDecl where
  key : String
  source : Option String
  format : Option String
deriving Repr, DecidableEq

/-- A parsed Rendering Config: `cfg["template"]` and `cfg["fields"]` are
required (their absence is a fatal config `KeyError`, absorbed into the
`loadCfg` argument below), `cfg.get("output_pattern", ...)` is optional. -/
structure RenderCfg where
  template : String
  outputPattern : Option String
  fields : List FieldDecl
deriving Repr, DecidableEq

def liftResolveErr : ResolveErr → RenderErr
  | .invalidPointer => .invalidPointer
  | .notFound => .notFound

/-- Python `obj.get(k)`: `None`-able lookup on a dict, `AttributeError`
when the receiver is not a dict. -/
def pyGet (j : Json) (k : String) : Except RenderErr (Option Json) :=
  match j with
  | .obj kvs => .ok (lookupKey kvs k)
  | _ => .error .attributeError

/-- Python `obj[k]`: `KeyError` when absent, `AttributeError`-style failure
when the receiver is not a dict. -/
def pyIndex (j : Json) (k : String) : Except RenderErr Json :=
  match j with
  | .obj kvs =>
    match lookupKey kvs k with
    | some v => .ok v
    | none => .error .keyError
  | _ => .error .attributeError

/-- Model of `_compute_func(name)`: the fixed registry holds only `today`, which
returns `datetime.today().date().isoformat()` (the oracle string
`todayStr`); any other name raises `ValueError("Unknown func: ...")`. -/
def computeFunc (name : String) (todayStr : String) : Except RenderErr Json :=
  if name = "today" then .ok (.str todayStr) else .error .unknownFunc

/-- The `source` dispatch of the field-mapping loop: a `/`-prefixed source
is resolved as a pointer, a `func:`-prefixed one through the registry, and
anything else raises `ValueError("Unsupported source: ...")`. -/
def sourceValue (customer : Json) (src : String) (todayStr : String) :
    Except RenderErr Json :=
  match src.toList with
  | '/' :: _ => (resolvePointer customer src).mapError liftResolveErr
  | 'f' :: 'u' :: 'n' :: 'c' :: ':' :: rest => computeFunc (String.mk rest) todayStr
  | _ => .error .unsupportedSource

/-- Python dict assignment `d[k] = v`: replace in place when the key exists,
append otherwise. -/
def dictSet (kvs : List (String × Json)) (k : String) (v : Json) :
    List (String × Json) :=
  if (lookupKey kvs k).isSome then
    kvs.map (fun kv => if kv.1 = k then (k, v) else kv)
  else kvs ++ [(k, v)]

/-- The Field Mapper loop (`for fld in fields_decl: ...`): resolve each
declaration's source, apply the format, and store under the declaration's
key. A missing `source` makes `source.startswith` raise `AttributeError`.
Resolution and unknown-function errors propagate and abort the record. -/
def buildFields (customer : Json) (decls : List FieldDecl) (todayStr : String)
    (acc : List (String × Json)) : Except RenderErr (List (String × Json)) :=
  match decls with
  | [] => .ok acc
  | d :: rest =>
    match d.source with
    | none => .error .attributeError
    | some src =>
      match sourceValue customer src todayStr with
      | .error e => .error e
      | .ok v => buildFields customer rest todayStr (dictSet acc d.key (applyFormat v d.format))

/-- Third disjunct of the nationality chain:
`customer.get("demographics", {}).get("country")`. -/
def selectNatFromCustomer (customer : Json) : Except RenderErr (Option Json) :=
  match pyGet customer "demographics" with
  | .error e => .error e
  | .ok dg => pyGet (dg.getD (.obj [])) "country"

/-- Chain `fields.get("nationality") or fields.get("country") or
customer.get("demographics", {}).get("country")`: Python `or` keeps the
first truthy operand and otherwise returns the last operand's value;
later operands are only evaluated when needed. -/
def selectNat (fields : List (String × Json)) (customer : Json) :
    Except RenderErr (Option Json) :=
  match lookupKey fields "nationality" with
  | some v =>
    if v.truthy then .ok (some v)
    else
      match lookupKey fields "country" with
      | some w => if w.truthy then .ok (some w) else selectNatFromCustomer customer
      | none => selectNatFromCustomer customer
  | none =>
    match lookupKey fields "country" with
    | some w => if w.truthy then .ok (some w) else selectNatFromCustomer customer
    | none => selectNatFromCustomer customer

/-- The passport template allow-list. -/
def allowedPassportCountries : List String := ["SG", "MY", "CN", "IN"]

/-- Rule `passport_country = nationality if nationality in {"SG","MY","CN","IN"}
else "SG"`: any non-member (including a non-string or `None`) selects the
default variant `"SG"`. -/
def passportCountry (nationality : Option Json) : String :=
  match nationality with
  | some (.str s) => if s ∈ allowedPassportCountries then s else "SG"
  | _ => "SG"

/-- Name `passport_template = f"passport_{passport_country}.html"`. -/
def passportCandidate (nationality : Option Json) : String :=
  "passport_" ++ passportCountry nationality ++ ".html"

/-- Lookup `env.get_template(name)` against the set of template files present
under the templates root: `TemplateNotFound` when absent. -/
def getTemplate (env : List String) (name : String) : Except RenderErr String :=
  if name ∈ env then .ok name else .error .templateNotFound

/-- The try/except around the variant load: any failure loading the
candidate falls back to `env.get_template(template_rel)`, whose own
failure is NOT caught and propagates. -/
def loadPassportTemplate (env : List String) (candidate generic : String) :
    Except RenderErr String :=
  match getTemplate env candidate with
  | .ok t => .ok t
  | .error _ => getTemplate env generic

/-- Python `str(v)` as used for `{customer_id}` substitution (records carry
string ids; other shapes are abbreviated). -/
def pyStr : Json → String
  | .str s => s
  | .num q => toString q
  | .bool true => "True"
  | .bool false => "False"
  | .null => "None"
  | .arr _ => "[...]"
  | .obj _ => "dict"

/-- Substitution `output_pattern.format(customer_id=...)`. -/
def substPattern (pattern cid : String) : String :=
  pattern.replace "\x7bcustomer_id\x7d" cid

/-- Result of one `render_passport_html` call: the `None` early return for
a missing/falsy passport sub-record, or a rendered document (which
template was rendered, and the output path that was written). -/
inductive RenderOutcome where
  | noDocument : RenderOutcome
  | rendered : String → String → RenderOutcome
deriving Repr, DecidableEq

/-- Model of `render_passport_html(customer, ...)`. `loadCfg` stands for
`load_json(schema_path)` plus the `cfg["template"]` / `cfg["fields"]`
accesses (an `Except` so that a missing or malformed config file is a
per-call failure); `env` is the set of template files under the templates
root; `todayStr` is the oracle for `func:today`. The passport check at the
top runs before the config is read and before anything is written. -/
def renderPassportHtml (customer : Json) (loadCfg : Except RenderErr RenderCfg)
    (env : List String) (todayStr : String) : Except RenderErr RenderOutcome :=
  match pyGet customer "id_documents" with
  | .error e => .error e
  | .ok idOpt =>
    match pyGet (idOpt.getD (.obj [])) "passport" with
    | .error e => .error e
    | .ok pOpt =>
      if truthyOpt pOpt = false then .ok .noDocument
      else
        match loadCfg with
        | .error e => .error e
        | .ok cfg =>
          match buildFields customer cfg.fields todayStr [] with
          | .error e => .error e
          | .ok fields =>
            match selectNat fields customer with
            | .error e => .error e
            | .ok nat =>
              match loadPassportTemplate env (passportCandidate nat) cfg.template with
              | .error e => .error e
              | .ok tname =>
                match pyIndex customer "customer_id" with
                | .error e => .error e
                | .ok cid =>
                  .ok (.rendered tname
                    (substPattern (cfg.outputPattern.getD "passport_\x7bcustomer_id\x7d.html")
                      (pyStr cid)))

-- ---------------------------------------------------------------------------
-- Batch driver (`render_passport.py` `main`)
-- ---------------------------------------------------------------------------

/-- The per-record lines `main` prints: the `[warn] Failed to render ...`
line from the `except` block, the `No passport details ..., skipping.`
line, and the `Rendered passport ...` line. -/
inductive StatusLine where
  | warnFailed : StatusLine
  | skippedNoDoc : StatusLine
  | renderedMsg : StatusLine
deriving Repr, DecidableEq

/-- An exception that escapes the driver loop and aborts the run. -/
inductive DriverCrash where
  | nameError : DriverCrash
deriving Repr, DecidableEq

/-- The `out_path` a successful `render_passport_html` call returns:
`None` for the no-document outcome, the output path otherwise. -/
def outcomeToOutPath : RenderOutcome → Option String
  | .noDocument => none
  | .rendered _ p => some p

/-- One iteration of the `for line in f` loop after the `try`: on success
`out_path` is rebound and the `if (out_path is None)` branch prints the
status; on an exception the warn line is printed and the same `if` then
reads the PREVIOUS `out_path` binding — which does not exist on a
first-iteration failure, raising `UnboundLocalError` (a `NameError`) that
escapes the loop. `prev = none` models the unbound state. -/
def statusLinesAfter (res : Except RenderErr RenderOutcome)
    (prev : Option (Option String)) :
    Except DriverCrash (List StatusLine × Option String) :=
  match res with
  | .ok oc =>
    let op := outcomeToOutPath oc
    .ok ((if op.isNone then [.skippedNoDoc] else [.renderedMsg]), op)
  | .error _ =>
    match prev with
    | none => .error .nameError
    | some op =>
      .ok (.warnFailed :: (if op.isNone then [.skippedNoDoc] else [.renderedMsg]), op)

/-- The driver loop of `render_passport.py`'s `main`, threading the
`out_path` binding across iterations; returns the per-record status lines
unless an exception escapes. -/
def passportDriverGo (loadCfg : Except RenderErr RenderCfg) (env : List String)
    (todayStr : String) :
    List Json → Option (Option String) → Except DriverCrash (List (List StatusLine))
  | [], _ => .ok []
  | c :: rest, prev =>
    match statusLinesAfter (renderPassportHtml c loadCfg env todayStr) prev with
    | .error e => .error e
    | .ok (lines, op) =>
      match passportDriverGo loadCfg env todayStr rest (some op) with
      | .error e => .error e
      | .ok tail => .ok (lines :: tail)

/-- The `main` loop of `render_passport.py`: process the records in file order with
per-record `try`/`except`. -/
def passportDriver (records : List Json) (loadCfg : Except RenderErr RenderCfg)
    (env : List String) (todayStr : String) :
    Except DriverCrash (List (List StatusLine)) :=
  passportDriverGo loadCfg env todayStr records none

-- ---------------------------------------------------------------------------
-- Record Generator (`generate_customers.py` `gen_customer` and helpers)
-- ---------------------------------------------------------------------------

/-- Table `DEFAULT_EMPLOY_DIST` (decimal literals as exact rationals). -/
def DEFAULT_EMPLOY_DIST : List (String × ℚ) :=
  [("Full-time", 60/100), ("Part-time", 10/100), ("Self-employed", 10/100),
   ("Unemployed", 5/100), ("Retired", 10/100), ("Student", 5/100)]

/-- Table `DEFAULT_MONTHLY_RANGES`. -/
def DEFAULT_MONTHLY_RANGES : List (String × ℚ × ℚ) :=
  [("Full-time", 3000, 15000), ("Part-time", 800, 4000),
   ("Self-employed", 2000, 20000), ("Unemployed", 0, 800),
   ("Retired", 0, 5000), ("Student", 0, 1500)]

/-- Table `SG_CITIES` (the random city pick indexes into this list). -/
def SG_CITIES : List String :=
  ["Central Area", "Bukit Timah", "Jurong East", "Jurong West", "Tampines",
   "Bedok", "Hougang", "Yishun", "Punggol", "Sengkang", "Toa Payoh",
   "Ang Mo Kio", "Woodlands", "Bukit Panjang", "Queenstown", "Clementi",
   "Marine Parade", "Serangoon", "Pasir Ris", "Choa Chu Kang"]

/-- The gender population of `random.choice(["Male", "Female", "Other",
"Prefer not to say"])`. -/
def GENDERS : List String := ["Male", "Female", "Other", "Prefer not to say"]

/-- The exceptions record generation can raise before schema validation. -/
inductive GenErr where
  | weightsNotPositive : GenErr
  | emptyPopulation : GenErr
deriving Repr, DecidableEq

/-- First-match lookup in a rational-valued table. -/
def lookupQ : List (String × ℚ) → String → Option ℚ
  | [], _ => none
  | (k, v) :: rest, key => if k = key then some v else lookupQ rest key

/-- First-match lookup in a range table. -/
def lookupRange : List (String × ℚ × ℚ) → String → Option (ℚ × ℚ)
  | [], _ => none
  | (k, v) :: rest, key => if k = key then some v else lookupRange rest key

/-- The bisect step of `random.choices`: walk the cumulative weights with
`x = random() * total` and return the first key whose cumulative weight
exceeds `x`, capped at the last element. -/
def pickCum : List (String × ℚ) → ℚ → String
  | [], _ => ""
  | [(k, _)], _ => k
  | (k, w) :: rest, x => if x < w then k else pickCum rest (x - w)

/-- Model of `weighted_choice(weights)` =
`random.choices(population, weights=probs, k=1)[0]`. `random.choices`
raises `ValueError("Total of weights must be greater than zero")` when the
cumulative total is not positive; `zip(*items)` on an empty dict also
raises. `r` is the `random()` draw in `[0, 1)`. -/
def weightedChoice (weights : List (String × ℚ)) (r : ℚ) : Except GenErr String :=
  match weights with
  | [] => .error .emptyPopulation
  | w :: ws =>
    let total := ((w :: ws).map (·.2)).sum
    if total ≤ 0 then .error .weightsNotPositive
    else .ok (pickCum (w :: ws) (r * total))

/-- Python `round(x, 2)` (float banker's rounding abstracted as exact
half-up rounding to two decimals; no claim depends on the tie rule). -/
def round2 (q : ℚ) : ℚ := (⌊q * 100 + 1 / 2⌋ : ℚ) / 100

/-- Model of `compute_income(emp_type, ranges_cfg)`. `random.triangular(lo, hi,
mode)` returns some value in `[lo, hi]`; its irrational inverse CDF is
abstracted by the draw `tri ∈ [0, 1]`, mapped affinely onto the range.
`var` is the `random.uniform(-0.05, 0.05)` draw. -/
def computeIncome (empType : String) (ranges : List (String × ℚ × ℚ))
    (tri : ℚ) (var : ℚ) : ℚ × ℚ :=
  let lh := (lookupRange ranges empType).getD (2000, 10000)
  let monthly0 := round2 (lh.1 + tri * (lh.2 - lh.1))
  let monthly := if empType = "Unemployed" ∨ empType = "Student" then
    max 0 monthly0 else monthly0
  let annual := round2 (monthly * 12 * (1 + var))
  (monthly, annual)

/-- The `constraints` JSON: `min_age`/`max_age` with defaults 0/90, the
optional fixed country/currency/nationality strings, and the optional
employment-distribution / income-range overrides. -/
structure Constraints where
  minAge : Nat
  maxAge : Nat
  country : Option String
  currency : Option String
  nationality : Option String
  employmentDistribution : Option (List (String × ℚ))
  monthlyIncomeRanges : List (String × ℚ × ℚ)
deriving Repr

/-- The random draws and Faker outputs one `gen_customer` call consumes,
passed explicitly (the Python code uses process-global random state). -/
structure GenChoices where
  uuid : String
  firstName : String
  lastName : String
  address : String
  fakeCountry : String
  fakeCity : String
  cityIdx : Nat
  dobR : Nat
  genderIdx : Nat
  passportCoin : ℚ
  passportNumber : String
  passportExpiry : String
  nricNumber : String
  empR : ℚ
  triDraw : ℚ
  incomeVar : ℚ
deriving Repr

/-- Python `a or b` for an optional string against a default: `None` and
`""` are falsy. -/
def pyOrStr (a : Option String) (b : String) : String :=
  match a with
  | some s => if s = "" then b else s
  | none => b

/-- The `country` value in `gen_customer`: `"SG"` when the constraints fix `"SG"`,
otherwise the fixed country string if truthy, else the Faker country. -/
def genCountry (cons : Constraints) (g : GenChoices) : String :=
  if cons.country = some "SG" then "SG" else pyOrStr cons.country g.fakeCountry

/-- The `city` value in `gen_customer`: a random SG city when the constraints fix
`"SG"`, otherwise the Faker city. -/
def genCity (cons : Constraints) (g : GenChoices) : String :=
  if cons.country = some "SG" then SG_CITIES.getD (g.cityIdx % SG_CITIES.length) ""
  else g.fakeCity

/-- Assignment `nationality = constraints.get("nationality") or country`. -/
def genNationality (cons : Constraints) (g : GenChoices) : String :=
  pyOrStr cons.nationality (genCountry cons g)

/-- Assignment `dob = random_dob(min_age, max_age)`. -/
def genDob (cons : Constraints) (g : GenChoices) (today : PDate) : PDate :=
  randomDob today cons.minAge cons.maxAge g.dobR

/-- Assignment `age = age_from_dob(dob)`. -/
def genAge (cons : Constraints) (g : GenChoices) (today : PDate) : Int :=
  ageFromDob today (genDob cons g today)

/-- The `personal_details` block. -/
def personalDetailsJson (cons : Constraints) (g : GenChoices) (today : PDate) : Json :=
  .obj [("name", .str (g.firstName ++ " " ++ g.lastName)),
        ("nationality", .str (genNationality cons g)),
        ("date_of_birth", .str (isoDate (genDob cons g today))),
        ("address", .str g.address)]

/-- The `demographics` block. -/
def demographicsJson (cons : Constraints) (g : GenChoices) (today : PDate) : Json :=
  .obj [("age", .num ((genAge cons g today : Int) : ℚ)),
        ("gender", .str (GENDERS.getD (g.genderIdx % 4) "")),
        ("country", .str (genCountry cons g)),
        ("city", .str (genCity cons g))]

/-- The customer dict right after its three unconditional insertions. -/
def customerBase (cons : Constraints) (g : GenChoices) (today : PDate) :
    List (String × Json) :=
  [("customer_id", .str g.uuid),
   ("personal_details", personalDetailsJson cons g today),
   ("demographics", demographicsJson cons g today)]

/-- The `id_documents` dict: an `nric` entry for country `"SG"`, and a
`passport` entry when the coin draw clears the age-dependent probability
(`0.95` for adults, `0.6` for minors). -/
def idDocsList (cons : Constraints) (g : GenChoices) (today : PDate) :
    List (String × Json) :=
  (if genCountry cons g = "SG" then
    [("nric", Json.obj
      [("nric_number", .str g.nricNumber),
       ("nationality", .str (genNationality cons g)),
       ("address", .str g.address)])]
   else []) ++
  (if g.passportCoin < (if 18 ≤ genAge cons g today then (95 : ℚ)/100 else (60 : ℚ)/100) then
    [("passport", Json.obj
      [("passport_number", .str g.passportNumber),
       ("nationality", .str (genNationality cons g)),
       ("expiry_date", .str g.passportExpiry),
       ("issuing_country", .str (genCountry cons g))])]
   else [])

/-- The customer dict after `if id_documents: customer["id_documents"] =
id_documents`. -/
def withIdList (cons : Constraints) (g : GenChoices) (today : PDate) :
    List (String × Json) :=
  if (idDocsList cons g today).isEmpty then customerBase cons g today
  else customerBase cons g today ++ [("id_documents", Json.obj (idDocsList cons g today))]

/-- Guard `total = sum(max(0.0, v) for v in emp_dist.values()) or 1.0`. -/
def empDistTotal (cons : Constraints) : ℚ :=
  let t := ((cons.employmentDistribution.getD DEFAULT_EMPLOY_DIST).map
    (fun kv => max 0 kv.2)).sum
  if t = 0 then 1 else t

/-- Normalization `emp_dist = {k: max(0.0, v) / total for k, v in emp_dist.items()}`. -/
def normalizedEmpDist (cons : Constraints) : List (String × ℚ) :=
  (cons.employmentDistribution.getD DEFAULT_EMPLOY_DIST).map
    (fun kv => (kv.1, max 0 kv.2 / empDistTotal cons))

/-- The `ranges_cfg` table: the default ranges with configured overrides. -/
def rangesCfgOf (cons : Constraints) : List (String × ℚ × ℚ) :=
  DEFAULT_MONTHLY_RANGES.map (fun kd =>
    match lookupRange cons.monthlyIncomeRanges kd.1 with
    | some lh => (kd.1, lh)
    | none => kd)

/-- The `financials` block for employment type `empType`. -/
def financialsJson (cons : Constraints) (g : GenChoices) (empType : String) : Json :=
  let inc := computeIncome empType (rangesCfgOf cons) g.triDraw g.incomeVar
  .obj [("employment_type", .str empType),
        ("monthly_income", .num inc.1),
        ("annual_income", .num inc.2),
        ("currency", .str (pyOrStr cons.currency
          (if genCountry cons g = "SG" then "SGD" else "USD")))]

/-- Model of `gen_customer(schema, constraints)` up to (but not including) the
jsonschema validation step, which either accepts the record unchanged or
raises; the record shape is fully determined here. `today` models
`date.today()`. -/
def genCustomer (cons : Constraints) (g : GenChoices) (today : PDate) :
    Except GenErr Json :=
  if 18 ≤ genAge cons g today then
    match weightedChoice (normalizedEmpDist cons) g.empR with
    | .error e => .error e
    | .ok empType =>
      .ok (.obj (withIdList cons g today ++ [("financials", financialsJson cons g empType)]))
  else .ok (.obj (withIdList cons g today))

-- ---------------------------------------------------------------------------
-- Concrete fixtures used by the claim theorems
-- ---------------------------------------------------------------------------

/-- Python `del d[k]` / a dict lacking key `k`: the list with every `k`
entry removed. -/
def removeKey : List (String × Json) → String → List (String × Json)
  | [], _ => []
  | (k, v) :: rest, key =>
    if k = key then removeKey rest key else (k, v) :: removeKey rest key

/-- The `demographics.age` value of a generated record, when generation
succeeds and the field resolves to a number. -/
def generatedAge (cons : Constraints) (g : GenChoices) (today : PDate) : Option ℚ :=
  match genCustomer cons g today with
  | .ok r =>
    match resolvePointer r "/demographics/age" with
    | .ok (.num q) => some q
    | _ => none
  | .error _ => none

/-- The error a generation attempt raises, if any. -/
def genError (cons : Constraints) (g : GenChoices) (today : PDate) : Option GenErr :=
  match genCustomer cons g today with
  | .ok _ => none
  | .error e => some e

/-- Constraints `\x7b"min_age": 0, "max_age": 80, "country": "SG"\x7d`. -/
def c3cons : Constraints := ⟨0, 80, some "SG", none, none, none, []⟩

/-- One assignment of random draws: the `randint(0, span_days)` draw is 0,
i.e. the generated date of birth is `earliest_dob` itself. -/
def c3g : GenChoices :=
  ⟨"id-1", "Ann", "Lee", "1 Road", "GB", "London", 0, 0, 0, 1,
   "AB1234567", "2030-01-01", "S1234567A", 0, 0, 0⟩

/-- Constraints with an all-zero `employment_distribution` override and an
adult age range. -/
def c9cons : Constraints :=
  ⟨30, 30, some "SG", none, none, some [("Full-time", 0), ("Part-time", 0)], []⟩

/-- Random draws for the all-zero-weights scenario (`randint` draw 100,
inside the sampled span, giving an adult age). -/
def c9g : GenChoices :=
  ⟨"id-9", "Bob", "Tan", "2 Road", "GB", "London", 1, 100, 1, 1,
   "CD7654321", "2031-01-01", "T7654321B", 0, 0, 0⟩

/-- Constraints pinning ages to [10, 10]. -/
def c7cons : Constraints := ⟨10, 10, some "SG", none, none, none, []⟩

/-- Random draws for the minor scenario: the `randint` draw 0 gives a
date of birth of 2015-10-13 (age 10 on 2026-10-12). -/
def c7g : GenChoices :=
  ⟨"id-7", "Kim", "Ong", "3 Road", "GB", "London", 2, 0, 2, 1,
   "EF1111111", "2032-01-01", "G1111111C", 0, 0, 0⟩

/-- The record the minor scenario generates. -/
def c7rec : Json :=
  match genCustomer c7cons c7g ⟨2026, 10, 12⟩ with
  | .ok r => r
  | .error _ => .null

/-- A record holding a (truthy) passport sub-record. -/
def c1cust : Json :=
  .obj [("customer_id", .str "c1"),
        ("id_documents", .obj [("passport", .obj [("passport_number", .str "E1234567")])])]

/-- A Rendering Config whose single field declaration points at a path that
does not exist on `c1cust`, so rendering it fails with the not-found error. -/
def c1cfg : RenderCfg :=
  ⟨"passport_generic.html", none, [⟨"num", some "/id_documents/passport/missing", none⟩]⟩

/-- A templates root containing both the generic and the SG variant. -/
def c1env : List String := ["passport_generic.html", "passport_SG.html"]

/-- A record with nationality "FR" (outside the allow-list) and a passport. -/
def c5cust : Json :=
  .obj [("customer_id", .str "c5"),
        ("demographics", .obj [("country", .str "FR")]),
        ("id_documents", .obj [("passport", .obj [("passport_number", .str "P1")])])]

/-- A Rendering Config with no field declarations and a generic template. -/
def c5cfg : RenderCfg := ⟨"passport_generic.html", none, []⟩

-- ---------------------------------------------------------------------------
-- Helper lemmas
-- ---------------------------------------------------------------------------

theorem resolveParts_eq_lookupPath (parts : List String) (doc : Json) :
    resolveParts doc parts =
      match lookupPath doc parts with
      | some v => .ok v
      | none => .error .notFound := by
  induction parts generalizing doc with
  | nil => cases doc <;> rfl
  | cons p rest ih =>
    cases doc with
    | obj kvs =>
      simp only [resolveParts, lookupPath]
      cases lookupKey kvs p with
      | none => rfl
      | some v => exact ih v
    | null => rfl
    | bool b => rfl
    | num q => rfl
    | str s => rfl
    | arr xs => rfl

theorem stripSlashes_append_slash (p : String) :
    stripSlashes (p ++ "/") = stripSlashes p := by
  have hdata : (p ++ "/").toList = p.toList ++ ['/'] := by
    simp [String.toList, String.data_append]
  simp [stripSlashes, hdata, List.dropWhile]

theorem pathComponents_append_slash (p : String) :
    pathComponents (p ++ "/") = pathComponents p := by
  simp [pathComponents, stripSlashes_append_slash]

-- ---------------------------------------------------------------------------
-- Claim theorems
-- ---------------------------------------------------------------------------

/-- Claim C2: for every record and every path string beginning with the
separator, the Path Resolver returns exactly the value reached by
successively indexing the record with the path's components in order, and
when some component is absent or an intermediate value is not a mapping it
fails with the not-found error — never a partial or default value. -/
theorem c2_resolve_pointer_correct (doc : Json) (p : String)
    (hsl : p.toList.head? = some '/') :
    (∀ v, lookupPath doc (pathComponents p) = some v →
      resolvePointer doc p = .ok v) ∧
    (lookupPath doc (pathComponents p) = none →
      resolvePointer doc p = .error .notFound) := by
  have hsl' : p.data.head? = some '/' := hsl
  have hres : resolvePointer doc p = resolveParts doc (pathComponents p) := by
    cases hl : p.data with
    | nil => rw [hl] at hsl'; cases hsl'
    | cons c t =>
      have hc : c = '/' := by
        rw [hl] at hsl'
        simpa using hsl'
      simp [resolvePointer, String.toList, hl, hc]
  rw [hres, resolveParts_eq_lookupPath]
  constructor
  · intro v hv
    rw [hv]
  · intro hv
    rw [hv]

/-- Witness for C2 at a concrete record and path: `/a/b` resolves through
two nested mappings, `/a/c` fails with the not-found error. -/
theorem c2_resolve_pointer_correct_witness :
    resolvePointer (Json.obj [("a", Json.obj [("b", Json.str "x")])]) "/a/b"
      = .ok (Json.str "x") ∧
    resolvePointer (Json.obj [("a", Json.obj [("b", Json.str "x")])]) "/a/c"
      = .error .notFound := by
  constructor
  · exact (c2_resolve_pointer_correct
      (Json.obj [("a", Json.obj [("b", Json.str "x")])]) "/a/b" rfl).1
      (Json.str "x") rfl
  · exact (c2_resolve_pointer_correct
      (Json.obj [("a", Json.obj [("b", Json.str "x")])]) "/a/c" rfl).2 rfl

/-- Claim C8 counterexample: the path `"/a/"` has a trailing separator —
outside the minimal grammar — yet the resolver silently resolves it to a
value instead of raising, because `strip("/")` removes trailing
separators before splitting. -/
theorem c8_trailing_separator_silently_resolves :
    resolvePointer (Json.obj [("a", Json.num 1)]) "/a/" = .ok (Json.num 1) := rfl

/-- Claim C8 (amended): every empty path or path not beginning with the
separator is rejected with InvalidPathError and never resolved; a path
with an extra trailing separator, however, is not rejected — leading and
trailing separators are stripped before splitting, so it resolves exactly
as the path without the trailing separator does. -/
theorem c8_amended_invalid_paths_rejected_trailing_stripped
    (doc : Json) (p : String) :
    (p.toList.head? ≠ some '/' → resolvePointer doc p = .error .invalidPointer) ∧
    (p.toList.head? = some '/' →
      resolvePointer doc (p ++ "/") = resolvePointer doc p) := by
  constructor
  · intro h
    have h' : p.data.head? ≠ some '/' := h
    cases hl : p.data with
    | nil => simp [resolvePointer, String.toList, hl]
    | cons c t =>
      have hc : c ≠ '/' := by
        rw [hl] at h'
        simpa using h'
      simp [resolvePointer, String.toList, hl, hc]
  · intro h
    have h' : p.data.head? = some '/' := h
    cases hl : p.data with
    | nil => rw [hl] at h'; cases h'
    | cons c t =>
      have hc : c = '/' := by
        rw [hl] at h'
        simpa using h'
      have happ : (p ++ "/").data = c :: (t ++ ['/']) := by
        rw [String.data_append, hl]
        rfl
      simp [resolvePointer, String.toList, hl, happ, hc, pathComponents_append_slash]

/-- Witness for the amended C8: a path not starting with the separator is
rejected, and `/a/` resolves exactly as `/a` does. -/
theorem c8_amended_witness :
    resolvePointer (Json.obj [("a", Json.num 2)]) "xa" = .error .invalidPointer ∧
    resolvePointer (Json.obj [("a", Json.num 2)]) ("/a" ++ "/")
      = resolvePointer (Json.obj [("a", Json.num 2)]) "/a" := by
  constructor
  · exact (c8_amended_invalid_paths_rejected_trailing_stripped
      (Json.obj [("a", Json.num 2)]) "xa").1 (by decide)
  · exact (c8_amended_invalid_paths_rejected_trailing_stripped
      (Json.obj [("a", Json.num 2)]) "/a").2 rfl

theorem lookupKey_removeKey (l : List (String × Json)) (k : String) :
    lookupKey (removeKey l k) k = none := by
  induction l with
  | nil => rfl
  | cons kv rest ih =>
    by_cases h : kv.1 = k
    · simpa [removeKey, h] using ih
    · simp [removeKey, h, lookupKey, ih]

theorem lookupKey_append_of_none (l₁ l₂ : List (String × Json)) (k : String)
    (h : lookupKey l₁ k = none) :
    lookupKey (l₁ ++ l₂) k = lookupKey l₂ k := by
  induction l₁ with
  | nil => rfl
  | cons kv rest ih =>
    by_cases hk : kv.1 = k
    · simp [lookupKey, hk] at h
    · simp [lookupKey, hk] at h ⊢
      exact ih h

theorem lookupKey_mapset (kvs : List (String × Json)) (k : String) (v : Json)
    (h : (lookupKey kvs k).isSome) :
    lookupKey (kvs.map (fun kv => if kv.1 = k then (k, v) else kv)) k = some v := by
  induction kvs with
  | nil => simp [lookupKey] at h
  | cons kv rest ih =>
    by_cases hk : kv.1 = k
    · simp only [List.map_cons, if_pos hk]
      simp [lookupKey]
    · have h' : (lookupKey rest k).isSome := by
        simpa [lookupKey, hk] using h
      simp only [List.map_cons, if_neg hk]
      simp [lookupKey, hk, ih h']

theorem lookupKey_dictSet (kvs : List (String × Json)) (k : String) (v : Json) :
    lookupKey (dictSet kvs k v) k = some v := by
  unfold dictSet
  split
  case isTrue hpresent => exact lookupKey_mapset kvs k v hpresent
  case isFalse habsent =>
    have hnone : lookupKey kvs k = none := by
      cases h : lookupKey kvs k with
      | none => rfl
      | some w => rw [h] at habsent; simp at habsent
    rw [lookupKey_append_of_none kvs [(k, v)] k hnone]
    simp [lookupKey]

/-- Claim C6: for every record (a mapping) lacking an
`id_documents.passport` sub-record, rendering the passport returns the
explicit no-document result without error — whatever the Rendering Config,
templates root, or clock — and the driver reports that outcome as a skip
line, distinct from the failure warning. -/
theorem c6_no_passport_returns_no_document (kvs : List (String × Json))
    (loadCfg : Except RenderErr RenderCfg) (env : List String)
    (todayStr : String) (prev : Option (Option String))
    (h : lookupKey kvs "id_documents" = none ∨
      ∃ ikvs, lookupKey kvs "id_documents" = some (.obj ikvs) ∧
        lookupKey ikvs "passport" = none) :
    renderPassportHtml (.obj kvs) loadCfg env todayStr = .ok .noDocument ∧
    statusLinesAfter (.ok .noDocument) prev = .ok ([.skippedNoDoc], none) ∧
    StatusLine.skippedNoDoc ≠ StatusLine.warnFailed := by
  refine ⟨?_, rfl, by decide⟩
  rcases h with hnone | ⟨ikvs, hid, hpass⟩
  · simp [renderPassportHtml, pyGet, hnone, lookupKey, truthyOpt]
  · simp [renderPassportHtml, pyGet, hid, hpass, truthyOpt]

/-- Witness for C6: a one-key record with no `id_documents` at all, under a
Rendering Config whose load would even fail — the outcome is still the
no-document result. -/
theorem c6_no_passport_returns_no_document_witness :
    renderPassportHtml (.obj [("customer_id", .str "c0")])
      (.error .keyError) [] "" = .ok .noDocument ∧
    statusLinesAfter (.ok .noDocument) none = .ok ([.skippedNoDoc], none) ∧
    StatusLine.skippedNoDoc ≠ StatusLine.warnFailed :=
  c6_no_passport_returns_no_document [("customer_id", .str "c0")]
    (.error .keyError) [] "" none (Or.inl rfl)

/-- Claim C10: for every record whose `id_documents.passport` key is
present but holds a falsy value, passport rendering returns the
no-document result whatever the Rendering Config (even one whose load
fails, showing the config is never read), and behaves exactly as it does
on the same record with the passport key removed. -/
theorem c10_falsy_passport_no_document (kvs ikvs : List (String × Json))
    (pv : Json) (hid : lookupKey kvs "id_documents" = some (.obj ikvs))
    (hp : lookupKey ikvs "passport" = some pv) (hfalsy : pv.truthy = false)
    (loadCfg : Except RenderErr RenderCfg) (env : List String)
    (todayStr : String) :
    renderPassportHtml (.obj kvs) loadCfg env todayStr = .ok .noDocument ∧
    renderPassportHtml (.obj kvs) loadCfg env todayStr
      = renderPassportHtml
          (.obj (dictSet kvs "id_documents" (.obj (removeKey ikvs "passport"))))
          loadCfg env todayStr := by
  have h1 : renderPassportHtml (.obj kvs) loadCfg env todayStr = .ok .noDocument := by
    simp [renderPassportHtml, pyGet, hid, hp, truthyOpt, hfalsy]
  refine ⟨h1, ?_⟩
  have h2 : renderPassportHtml
      (.obj (dictSet kvs "id_documents" (.obj (removeKey ikvs "passport"))))
      loadCfg env todayStr = .ok .noDocument := by
    simp [renderPassportHtml, pyGet, lookupKey_dictSet, lookupKey_removeKey, truthyOpt]
  rw [h1, h2]

/-- Witness for C10: a record whose passport sub-record is the empty
mapping (falsy) is skipped exactly like one without a passport. -/
theorem c10_falsy_passport_no_document_witness :
    renderPassportHtml
      (.obj [("customer_id", .str "c"), ("id_documents", .obj [("passport", .obj [])])])
      (.error .keyError) [] "" = .ok .noDocument ∧
    renderPassportHtml
      (.obj [("customer_id", .str "c"), ("id_documents", .obj [("passport", .obj [])])])
      (.error .keyError) [] ""
      = renderPassportHtml
          (.obj (dictSet [("customer_id", .str "c"),
            ("id_documents", .obj [("passport", .obj [])])] "id_documents"
            (.obj (removeKey [("passport", .obj [])] "passport"))))
          (.error .keyError) [] "" :=
  c10_falsy_passport_no_document
    [("customer_id", .str "c"), ("id_documents", .obj [("passport", .obj [])])]
    [("passport", .obj [])] (.obj []) rfl rfl rfl (.error .keyError) [] ""

/-- Claim C1 (failing evaluation): a batch whose first record fails
resolution (its passport exists but the configured field path does not)
makes the render call raise the not-found error; the driver's `except`
block catches it, but the following `if (out_path is None)` status check
reads `out_path` before any assignment ever happened, and the resulting
`UnboundLocalError` escapes the loop and aborts the whole batch. -/
theorem c1_first_record_failure_crashes_driver :
    renderPassportHtml c1cust (.ok c1cfg) c1env "2026-10-12" = .error .notFound ∧
    passportDriver [c1cust] (.ok c1cfg) c1env "2026-10-12" = .error .nameError :=
  ⟨rfl, rfl⟩

section RatEval

attribute [local semireducible] Rat.add Rat.mul Rat.inv Rat.sub

/-- Claim C3 (failing evaluation): with `min_age = 0`, `max_age = 80`,
today 2026-10-12 and the `randint` draw 0 (a draw inside the sampled
span), the generated record's `demographics.age` is 81 — outside the
configured inclusive range, because `earliest_dob` subtracts a flat 365
days below the `max_age` anchor date. -/
theorem c3_age_can_exceed_max :
    generatedAge c3cons c3g ⟨2026, 10, 12⟩ = some 81 ∧
    c3cons.minAge = 0 ∧ c3cons.maxAge = 80 ∧
    c3g.dobR ≤ dobSpan ⟨2026, 10, 12⟩ c3cons.minAge c3cons.maxAge ∧
    ¬ ((81 : ℚ) ≤ 80) :=
  ⟨by decide, rfl, rfl, by decide, by norm_num⟩

/-- Claim C5 counterexample: nationality "FR" is outside the allow-list
and the default variant name `passport_SG.html` is constructed, but with
an empty templates root — where the generic template declared in the
Rendering Config is missing too — the fallback load raises
`TemplateNotFound`, which escapes `render_passport_html`. -/
theorem c5_fallback_raises_when_generic_missing :
    ("FR" ∈ allowedPassportCountries) = False ∧
    passportCandidate (some (.str "FR")) = "passport_SG.html" ∧
    renderPassportHtml c5cust (.ok c5cfg) [] "2026-10-12"
      = .error .templateNotFound := by
  refine ⟨by simp [allowedPassportCountries], rfl, rfl⟩

/-- Claim C5 (amended): for every selection nationality outside the
allow-list the Template Selector constructs the default variant name
`passport_SG.html`, and when that candidate is absent it falls back to
the generic template declared in the Rendering Config without raising —
provided the generic template itself is present; when the generic is also
missing, the fallback load raises. -/
theorem c5_amended_fallback_needs_generic (n : String)
    (hn : n ∉ allowedPassportCountries) (env : List String) (generic : String)
    (hcand : "passport_SG.html" ∉ env) (hgen : generic ∈ env) :
    passportCandidate (some (.str n)) = "passport_SG.html" ∧
    loadPassportTemplate env (passportCandidate (some (.str n))) generic
      = .ok generic := by
  have h1 : passportCountry (some (.str n)) = "SG" := by
    simp [passportCountry, hn]
  refine ⟨by simp [passportCandidate, h1], ?_⟩
  simp [loadPassportTemplate, getTemplate, passportCandidate, h1, hcand, hgen]

/-- Witness for the amended C5: nationality "FR" with only the generic
template present degrades to the generic template without error. -/
theorem c5_amended_fallback_needs_generic_witness :
    passportCandidate (some (.str "FR")) = "passport_SG.html" ∧
    loadPassportTemplate ["passport_generic.html"]
      (passportCandidate (some (.str "FR"))) "passport_generic.html"
      = .ok "passport_generic.html" :=
  c5_amended_fallback_needs_generic "FR" (by decide)
    ["passport_generic.html"] "passport_generic.html" (by decide) (by decide)

/-- Claim C9 (failing evaluation): under an all-zero
`employment_distribution` override and an adult age range, the
`sum(...) or 1.0` guard only avoids the division by zero — the normalized
weights are still all zero, and `random.choices` raises
`ValueError("Total of weights must be greater than zero")`, so record
generation aborts instead of completing. -/
theorem c9_all_zero_weights_error :
    (18 ≤ ageFromDob ⟨2026, 10, 12⟩
      (randomDob ⟨2026, 10, 12⟩ c9cons.minAge c9cons.maxAge c9g.dobR)) ∧
    genError c9cons c9g ⟨2026, 10, 12⟩ = some .weightsNotPositive :=
  ⟨by decide, by decide⟩

end RatEval

theorem resolve_demo_age (cid pd aval : Json) (dgrest tail : List (String × Json)) :
    resolvePointer (Json.obj (("customer_id", cid) :: ("personal_details", pd) ::
      ("demographics", Json.obj (("age", aval) :: dgrest)) :: tail))
      "/demographics/age" = .ok aval := rfl

theorem resolve_age_withId (cons : Constraints) (g : GenChoices) (today : PDate)
    (tail : List (String × Json)) :
    resolvePointer (Json.obj (withIdList cons g today ++ tail)) "/demographics/age"
      = .ok (.num ((genAge cons g today : Int) : ℚ)) := by
  unfold withIdList
  by_cases h : (idDocsList cons g today).isEmpty
  · simp only [if_pos h, customerBase, demographicsJson, List.cons_append, List.nil_append]
    exact resolve_demo_age _ _ _ _ _
  · simp only [if_neg h, customerBase, demographicsJson, List.cons_append,
      List.nil_append, List.append_assoc]
    exact resolve_demo_age _ _ _ _ _

theorem lookupKey_financials_withId (cons : Constraints) (g : GenChoices)
    (today : PDate) (tail : List (String × Json)) :
    lookupKey (withIdList cons g today ++ tail) "financials"
      = lookupKey tail "financials" := by
  unfold withIdList
  by_cases h : (idDocsList cons g today).isEmpty
  · simp only [if_pos h, customerBase, List.cons_append, List.nil_append]
    simp [lookupKey]
  · simp only [if_neg h, customerBase, List.cons_append, List.nil_append,
      List.append_assoc]
    simp [lookupKey]

/-- Claim C7: every record the generator produces whose `demographics.age`
is below 18 carries no `financials` key — the employment/income block is
appended only in the adult branch. -/
theorem c7_minor_has_no_financials (cons : Constraints) (g : GenChoices)
    (today : PDate) (rec : Json) (a : ℚ)
    (hok : genCustomer cons g today = .ok rec)
    (hage : resolvePointer rec "/demographics/age" = .ok (.num a))
    (hlt : a < 18) :
    rec.getKey "financials" = none := by
  unfold genCustomer at hok
  by_cases h18 : (18 : Int) ≤ genAge cons g today
  · rw [if_pos h18] at hok
    cases hwc : weightedChoice (normalizedEmpDist cons) g.empR with
    | error e => rw [hwc] at hok; cases hok
    | ok empType =>
      rw [hwc] at hok
      simp only [Except.ok.injEq] at hok
      subst hok
      rw [resolve_age_withId] at hage
      simp only [Except.ok.injEq, Json.num.injEq] at hage
      rw [← hage] at hlt
      have : genAge cons g today < 18 := by exact_mod_cast hlt
      omega
  · rw [if_neg h18] at hok
    simp only [Except.ok.injEq] at hok
    subst hok
    show lookupKey (withIdList cons g today) "financials" = none
    rw [← List.append_nil (withIdList cons g today), lookupKey_financials_withId]
    rfl

/-- Witness for C7 at a concrete minor: `min_age = max_age = 10` and the
draw 0 produce a record of age 10 with no `financials` key. -/
theorem c7_minor_has_no_financials_witness :
    genCustomer c7cons c7g ⟨2026, 10, 12⟩ = .ok c7rec ∧
    resolvePointer c7rec "/demographics/age" = .ok (.num 10) ∧
    ((10 : ℚ) < 18) ∧
    c7rec.getKey "financials" = none := by
  refine ⟨rfl, rfl, by norm_num, ?_⟩
  exact c7_minor_has_no_financials c7cons c7g ⟨2026, 10, 12⟩ c7rec 10 rfl rfl
    (by norm_num)
